import Mathlib

set_option maxHeartbeats 1000000

/- Shallow embedding of src/lander.cpp (Mars lander simulator, mechanical
   simulation functions).  C++ doubles are modelled as real numbers. -/

/-- Modelled from the spec: the VectorMath leaf component (the `vector3d`
value type is declared in lander.h, which is not under src/): a 3D vector
with componentwise arithmetic, squared magnitude `abs2`, magnitude `abs`
and unit direction `norm`. -/
@[ext] structure vector3d where
  x : ℝ
  y : ℝ
  z : ℝ

instance : Zero vector3d := ⟨⟨0, 0, 0⟩⟩

instance : Add vector3d := ⟨fun a b => ⟨a.x + b.x, a.y + b.y, a.z + b.z⟩⟩

instance : Sub vector3d := ⟨fun a b => ⟨a.x - b.x, a.y - b.y, a.z - b.z⟩⟩

instance : Neg vector3d := ⟨fun a => ⟨-a.x, -a.y, -a.z⟩⟩

instance : HMul ℝ vector3d vector3d := ⟨fun r v => ⟨r * v.x, r * v.y, r * v.z⟩⟩

instance : HMul vector3d ℝ vector3d := ⟨fun v r => ⟨v.x * r, v.y * r, v.z * r⟩⟩

noncomputable instance : HDiv vector3d ℝ vector3d := ⟨fun v r => ⟨v.x / r, v.y / r, v.z / r⟩⟩

/-- Squared magnitude of a vector (vector3d::abs2). -/
def vector3d.abs2 (v : vector3d) : ℝ := v.x ^ 2 + v.y ^ 2 + v.z ^ 2

/-- Magnitude of a vector (vector3d::abs). -/
noncomputable def vector3d.abs (v : vector3d) : ℝ := Real.sqrt v.abs2

/-- Modelled from the spec: `norm` is the unit direction of the vector;
the magnitude operation is undefined (or guarded) at the zero vector, where
real division by zero makes this the zero vector itself. -/
noncomputable def vector3d.norm (v : vector3d) : vector3d := v / v.abs

/-- Modelled from the spec: the named physical and configuration constants
(LanderConfig) are declared in lander.h, which is not under src/; they are
kept abstract as a configuration record, as the spec lists them. -/
structure LanderConfig where
  GRAVITY : ℝ
  MARS_MASS : ℝ
  MARS_RADIUS : ℝ
  EXOSPHERE : ℝ
  UNLOADED_LANDER_MASS : ℝ
  FUEL_CAPACITY : ℝ
  FUEL_DENSITY : ℝ
  MAX_THRUST : ℝ
  DRAG_COEF_LANDER : ℝ
  DRAG_COEF_CHUTE : ℝ
  LANDER_SIZE : ℝ

/-- Modelled from the spec: the ParachuteStatus enum is declared in lander.h,
which is not under src/; the spec lists the states NOT_DEPLOYED and DEPLOYED.
A C++ enum carries an integer, so the status is modelled as an integer with
the two listed states as distinct values. -/
def NOT_DEPLOYED : ℤ := 0

/-- Modelled from the spec: second listed parachute state, see NOT_DEPLOYED. -/
def DEPLOYED : ℤ := 1

/-- Gravity term of src/lander.cpp line 26 (and, identically, line 46):
`-GRAVITY * MARS_MASS * position.norm() / position.abs2()`. -/
noncomputable def a_gravity (cfg : LanderConfig) (position : vector3d) : vector3d :=
  -cfg.GRAVITY * cfg.MARS_MASS * position.norm / position.abs2

/-- Skin drag, src/lander.cpp lines 29-30.  `atmospheric_density` is an
external collaborator (not under src/), passed as the opaque function ρ. -/
noncomputable def self_drag (cfg : LanderConfig) (ρ : vector3d → ℝ)
    (position velocity : vector3d) : vector3d :=
  -0.5 * ρ position * cfg.DRAG_COEF_LANDER * (3.1415 * cfg.LANDER_SIZE ^ 2)
    * velocity.abs2 * velocity.norm

/-- Parachute drag, src/lander.cpp lines 31-32. -/
noncomputable def para_drag (cfg : LanderConfig) (ρ : vector3d → ℝ)
    (position velocity : vector3d) : vector3d :=
  -0.5 * ρ position * cfg.DRAG_COEF_CHUTE * (cfg.LANDER_SIZE * 2) ^ 2
    * velocity.abs2 * velocity.norm * (5 : ℝ)

/-- Current mass as the code computes it, src/lander.cpp line 36:
`mass = fuel * FUEL_CAPACITY * FUEL_DENSITY`. -/
noncomputable def current_mass (cfg : LanderConfig) (fuel : ℝ) : ℝ :=
  fuel * cfg.FUEL_CAPACITY * cfg.FUEL_DENSITY

/-- Current mass as the spec states it (refinement comparison definition):
`unloadedMass + fuelFraction * fuelCapacityMass * fuelDensity`. -/
noncomputable def spec_current_mass (cfg : LanderConfig) (fuel : ℝ) : ℝ :=
  cfg.UNLOADED_LANDER_MASS + fuel * cfg.FUEL_CAPACITY * cfg.FUEL_DENSITY

/-- Drag selection, src/lander.cpp lines 33-34: two if-statements with no
else assign the otherwise-uninitialized local `drag`; the two conditions are
mutually exclusive, so the sequential ifs are an if/else-if chain, and the
unassigned case is `none`. -/
noncomputable def drag (cfg : LanderConfig) (ρ : vector3d → ℝ) (ps : ℤ)
    (position velocity : vector3d) : Option vector3d :=
  if ps = DEPLOYED then
    some (self_drag cfg ρ position velocity + para_drag cfg ρ position velocity)
  else if ps = NOT_DEPLOYED then
    some (self_drag cfg ρ position velocity)
  else none

/-- src/lander.cpp lines 21-40, `acceleration`.  `thrust_wrt_world()` is an
external collaborator (not under src/); per the spec the force model treats
it as an opaque world-frame input vector, here the parameter `thrust`.
The result is `none` exactly when the local `drag` stays unassigned. -/
noncomputable def acceleration (cfg : LanderConfig) (ρ : vector3d → ℝ)
    (thrust : vector3d) (ps : ℤ) (fuel : ℝ)
    (position velocity : vector3d) : Option vector3d :=
  (drag cfg ρ ps position velocity).map fun d =>
    a_gravity cfg position + (thrust + d) / current_mass cfg fuel

/-- Hover force of the autopilot, src/lander.cpp lines 45-48:
`force = acceleration.y * (fuel * FUEL_CAPACITY * FUEL_DENSITY + UNLOADED_LANDER_MASS)`
where `acceleration` is the local gravity vector of line 46. -/
noncomputable def autopilot_force (cfg : LanderConfig) (position : vector3d)
    (fuel : ℝ) : ℝ :=
  (a_gravity cfg position).y
    * (fuel * cfg.FUEL_CAPACITY * cfg.FUEL_DENSITY + cfg.UNLOADED_LANDER_MASS)

/-- Altitude as the autopilot computes it, src/lander.cpp line 51:
`alt = abs(position.y) - MARS_RADIUS`. -/
noncomputable def autopilot_alt (cfg : LanderConfig) (position : vector3d) : ℝ :=
  |position.y| - cfg.MARS_RADIUS

/-- Gain schedule, src/lander.cpp lines 52-53:
`scaling = (4000 - alt) / 4000`, clamped below at 0. -/
noncomputable def autopilot_scaling (cfg : LanderConfig) (position : vector3d) : ℝ :=
  let s := (4000 - autopilot_alt cfg position) / 4000
  if s < 0 then 0 else s

/-- src/lander.cpp lines 42-93, `autopilot`: returns the throttle value the
routine leaves in the global `throttle`.  The `static double scaling` is
reassigned unconditionally before use on every call (line 52), so the
routine is a pure function of position, velocity and fuel.  The three
low-altitude if-statements run in sequence with pairwise-exclusive
conditions, encoded by sequential shadowing. -/
noncomputable def autopilot (cfg : LanderConfig) (position velocity : vector3d)
    (fuel : ℝ) : ℝ :=
  let force := autopilot_force cfg position fuel
  let alt := autopilot_alt cfg position
  let scaling := autopilot_scaling cfg position
  let t0 := force / cfg.MAX_THRUST * scaling
  let t1 := if velocity.y < 0 then 0 else t0
  if alt < 300 then
    let t2 := if 0.6 < velocity.y ∧ velocity.y < 3 then force / cfg.MAX_THRUST * 0.5 else t1
    let t3 := if 3 < velocity.y then force / cfg.MAX_THRUST else t2
    if velocity.y < 0.6 then 0 else t3
  else t1

/-- Simulation state: the globals read and written by the functions of
src/lander.cpp, plus the function-static `previous` of numerical_dynamics. -/
structure SimState where
  position : vector3d
  velocity : vector3d
  orientation : vector3d
  previous : vector3d
  simulation_time : ℝ
  delta_t : ℝ
  throttle : ℝ
  fuel : ℝ
  parachute_status : ℤ
  stabilized_attitude : Bool
  autopilot_enabled : Bool
  scenario_description : List String

/-- src/lander.cpp line 124: the optional attitude-stabilization call;
`attitude_stabilization` is an external collaborator (not under src/),
passed as the opaque function `stab` writing the orientation. -/
noncomputable def stab_step (stab : SimState → vector3d) (s : SimState) : SimState :=
  if s.stabilized_attitude then { s with orientation := stab s } else s

/-- src/lander.cpp lines 121 and 124: the optional autopilot call (which
writes the global `throttle`) followed by the optional stabilization call. -/
noncomputable def apply_controllers (cfg : LanderConfig) (stab : SimState → vector3d)
    (s : SimState) : SimState :=
  stab_step stab
    (if s.autopilot_enabled then
      { s with throttle := autopilot cfg s.position s.velocity s.fuel }
    else s)

/-- src/lander.cpp lines 95-125, `numerical_dynamics`: the bootstrap branch
at simulation_time == 0, the central-difference branch otherwise, then the
controller calls.  The result is `none` exactly when the acceleration call
reads the unassigned drag local. -/
noncomputable def numerical_dynamics (cfg : LanderConfig) (ρ : vector3d → ℝ)
    (thrust : vector3d) (stab : SimState → vector3d) (s : SimState) :
    Option SimState :=
  if s.simulation_time = 0 then
    (acceleration cfg ρ thrust s.parachute_status s.fuel s.position s.velocity).map
      fun (acc : vector3d) =>
        apply_controllers cfg stab
          { s with
              previous := s.position,
              position := s.position + s.velocity * s.delta_t
                + 0.5 * s.delta_t * s.delta_t * acc,
              velocity := s.velocity + s.delta_t * acc }
  else
    (acceleration cfg ρ thrust s.parachute_status s.fuel s.position s.velocity).map
      fun (acc : vector3d) =>
        apply_controllers cfg stab
          { s with
              previous := s.position,
              position := (2 : ℝ) * s.position - s.previous + acc * s.delta_t * s.delta_t,
              velocity := ((2 : ℝ) * s.position - s.previous + acc * s.delta_t * s.delta_t
                - s.previous) / (2 * s.delta_t) }

/-- Help-screen strings written by initialize_simulation before the switch,
src/lander.cpp lines 138-147. -/
def scenario_descs : List String :=
  ["circular orbit", "descent from 10km",
   "elliptical orbit, thrust changes orbital plane",
   "polar launch at escape velocity (but drag prevents escape)",
   "elliptical orbit that clips the atmosphere and decays",
   "descent from 200km", "", "", "", ""]

/-- src/lander.cpp lines 127-230, `initialize_simulation`: switch on the
global `scenario` (an int, here the parameter `scen`); cases 0-5 set the
pose, cases 6-9 are empty, and an index without a case falls through the
switch leaving the state untouched. -/
noncomputable def initialize_simulation (cfg : LanderConfig) (scen : ℤ)
    (s : SimState) : SimState :=
  if scen = 0 then
    { s with scenario_description := scenario_descs,
             position := ⟨1.2 * cfg.MARS_RADIUS, 0, 0⟩,
             velocity := ⟨0, -3247.087385863725, 0⟩,
             orientation := ⟨0, 90, 0⟩,
             delta_t := 0.1,
             parachute_status := NOT_DEPLOYED,
             stabilized_attitude := false,
             autopilot_enabled := false }
  else if scen = 1 then
    { s with scenario_description := scenario_descs,
             position := ⟨0, -(cfg.MARS_RADIUS + 10000), 0⟩,
             velocity := ⟨0, 0, 0⟩,
             orientation := ⟨0, 0, 90⟩,
             delta_t := 0.1,
             parachute_status := NOT_DEPLOYED,
             stabilized_attitude := true,
             autopilot_enabled := false }
  else if scen = 2 then
    { s with scenario_description := scenario_descs,
             position := ⟨0, 0, 1.2 * cfg.MARS_RADIUS⟩,
             velocity := ⟨3500, 0, 0⟩,
             orientation := ⟨0, 0, 90⟩,
             delta_t := 0.1,
             parachute_status := NOT_DEPLOYED,
             stabilized_attitude := false,
             autopilot_enabled := false }
  else if scen = 3 then
    { s with scenario_description := scenario_descs,
             position := ⟨0, 0, cfg.MARS_RADIUS + cfg.LANDER_SIZE / 2⟩,
             velocity := ⟨0, 0, 5027⟩,
             orientation := ⟨0, 0, 0⟩,
             delta_t := 0.1,
             parachute_status := NOT_DEPLOYED,
             stabilized_attitude := false,
             autopilot_enabled := false }
  else if scen = 4 then
    { s with scenario_description := scenario_descs,
             position := ⟨0, 0, cfg.MARS_RADIUS + 100000⟩,
             velocity := ⟨4000, 0, 0⟩,
             orientation := ⟨0, 90, 0⟩,
             delta_t := 0.1,
             parachute_status := NOT_DEPLOYED,
             stabilized_attitude := false,
             autopilot_enabled := false }
  else if scen = 5 then
    { s with scenario_description := scenario_descs,
             position := ⟨0, -(cfg.MARS_RADIUS + cfg.EXOSPHERE), 0⟩,
             velocity := ⟨0, 0, 0⟩,
             orientation := ⟨0, 0, 90⟩,
             delta_t := 0.1,
             parachute_status := NOT_DEPLOYED,
             stabilized_attitude := true,
             autopilot_enabled := false }
  else
    { s with scenario_description := scenario_descs }

/-- Concrete configuration used for evaluating the model on witnesses and
counterexamples (the numeric values of lander.h are not under src/; any
positive values exercise the same control and force paths). -/
noncomputable def cfg₀ : LanderConfig :=
  { GRAVITY := 1, MARS_MASS := 1, MARS_RADIUS := 1, EXOSPHERE := 1,
    UNLOADED_LANDER_MASS := 100, FUEL_CAPACITY := 100, FUEL_DENSITY := 1,
    MAX_THRUST := 100, DRAG_COEF_LANDER := 1, DRAG_COEF_CHUTE := 1,
    LANDER_SIZE := 1 }

/-- Zero atmospheric density (the density above the exosphere). -/
noncomputable def ρ₀ : vector3d → ℝ := fun _ => 0

/-- Unit atmospheric density. -/
noncomputable def ρ₁ : vector3d → ℝ := fun _ => 1

/-- Zero thrust input. -/
noncomputable def thrust₀ : vector3d := ⟨0, 0, 0⟩

/-- Trivial attitude-stabilization collaborator. -/
noncomputable def stab₀ : SimState → vector3d := fun _ => ⟨0, 0, 0⟩

/-- Concrete pre-step state for the integrator witness: at rest one unit
above the origin, at simulation time 0. -/
noncomputable def s₀ : SimState :=
  { position := ⟨0, 1, 0⟩, velocity := ⟨0, 0, 0⟩, orientation := ⟨0, 0, 0⟩,
    previous := ⟨0, 0, 0⟩, simulation_time := 0, delta_t := 1, throttle := 0,
    fuel := 1, parachute_status := NOT_DEPLOYED, stabilized_attitude := false,
    autopilot_enabled := false, scenario_description := [] }

/-- State after one bootstrap step from s₀ (gravity ⟨0,-1,0⟩, Δt = 1). -/
noncomputable def s₁ : SimState :=
  { s₀ with previous := ⟨0, 1, 0⟩, position := ⟨0, 1 / 2, 0⟩,
            velocity := ⟨0, -1, 0⟩ }

theorem vector3d.add_x (a b : vector3d) : (a + b).x = a.x + b.x := rfl

theorem vector3d.add_y (a b : vector3d) : (a + b).y = a.y + b.y := rfl

theorem vector3d.add_z (a b : vector3d) : (a + b).z = a.z + b.z := rfl

theorem vector3d.sub_x (a b : vector3d) : (a - b).x = a.x - b.x := rfl

theorem vector3d.sub_y (a b : vector3d) : (a - b).y = a.y - b.y := rfl

theorem vector3d.sub_z (a b : vector3d) : (a - b).z = a.z - b.z := rfl

theorem vector3d.rmul_x (r : ℝ) (v : vector3d) : (r * v).x = r * v.x := rfl

theorem vector3d.rmul_y (r : ℝ) (v : vector3d) : (r * v).y = r * v.y := rfl

theorem vector3d.rmul_z (r : ℝ) (v : vector3d) : (r * v).z = r * v.z := rfl

theorem vector3d.mulr_x (v : vector3d) (r : ℝ) : (v * r).x = v.x * r := rfl

theorem vector3d.mulr_y (v : vector3d) (r : ℝ) : (v * r).y = v.y * r := rfl

theorem vector3d.mulr_z (v : vector3d) (r : ℝ) : (v * r).z = v.z * r := rfl

theorem vector3d.div_x (v : vector3d) (r : ℝ) : (v / r).x = v.x / r := rfl

theorem vector3d.div_y (v : vector3d) (r : ℝ) : (v / r).y = v.y / r := rfl

theorem vector3d.div_z (v : vector3d) (r : ℝ) : (v / r).z = v.z / r := rfl

theorem vector3d.neg_x (v : vector3d) : (-v).x = -v.x := rfl

theorem vector3d.neg_y (v : vector3d) : (-v).y = -v.y := rfl

theorem vector3d.neg_z (v : vector3d) : (-v).z = -v.z := rfl

theorem vector3d.zero_x : (0 : vector3d).x = 0 := rfl

theorem vector3d.zero_y : (0 : vector3d).y = 0 := rfl

theorem vector3d.zero_z : (0 : vector3d).z = 0 := rfl

attribute [simp] vector3d.add_x vector3d.add_y vector3d.add_z
  vector3d.sub_x vector3d.sub_y vector3d.sub_z
  vector3d.rmul_x vector3d.rmul_y vector3d.rmul_z
  vector3d.mulr_x vector3d.mulr_y vector3d.mulr_z
  vector3d.div_x vector3d.div_y vector3d.div_z
  vector3d.neg_x vector3d.neg_y vector3d.neg_z
  vector3d.zero_x vector3d.zero_y vector3d.zero_z

theorem vector3d.abs2_nonneg (v : vector3d) : 0 ≤ v.abs2 := by
  unfold vector3d.abs2; positivity

theorem vector3d.abs2_pos (v : vector3d) (hv : v ≠ 0) : 0 < v.abs2 := by
  rcases lt_or_eq_of_le v.abs2_nonneg with h | h
  · exact h
  · exfalso
    apply hv
    have hx : v.x ^ 2 = 0 := by
      have := sq_nonneg v.x; have := sq_nonneg v.y; have := sq_nonneg v.z
      unfold vector3d.abs2 at h; linarith
    have hy : v.y ^ 2 = 0 := by
      have := sq_nonneg v.x; have := sq_nonneg v.y; have := sq_nonneg v.z
      unfold vector3d.abs2 at h; linarith
    have hz : v.z ^ 2 = 0 := by
      have := sq_nonneg v.x; have := sq_nonneg v.y; have := sq_nonneg v.z
      unfold vector3d.abs2 at h; linarith
    ext
    · simpa using sq_eq_zero_iff.mp hx
    · simpa using sq_eq_zero_iff.mp hy
    · simpa using sq_eq_zero_iff.mp hz

theorem vector3d.abs_nonneg (v : vector3d) : 0 ≤ v.abs := Real.sqrt_nonneg _

theorem vector3d.abs_pos (v : vector3d) (hv : v ≠ 0) : 0 < v.abs :=
  Real.sqrt_pos.mpr (v.abs2_pos hv)

theorem vector3d.sq_abs (v : vector3d) : v.abs ^ 2 = v.abs2 :=
  Real.sq_sqrt v.abs2_nonneg

theorem vector3d.rmul_abs2 (r : ℝ) (v : vector3d) :
    (r * v).abs2 = r ^ 2 * v.abs2 := by
  simp only [vector3d.abs2, vector3d.rmul_x, vector3d.rmul_y, vector3d.rmul_z]
  ring

theorem vector3d.rmul_abs (r : ℝ) (v : vector3d) :
    (r * v).abs = |r| * v.abs := by
  unfold vector3d.abs
  rw [vector3d.rmul_abs2, Real.sqrt_mul (sq_nonneg r), Real.sqrt_sq_eq_abs]

theorem vector3d.rmul_add_rmul (a b : ℝ) (v : vector3d) :
    a * v + b * v = (a + b) * v := by
  ext <;> simp <;> ring

theorem vector3d.norm_abs (v : vector3d) (hv : v ≠ 0) : v.norm.abs = 1 := by
  have h2 : v.abs2 ≠ 0 := ne_of_gt (v.abs2_pos hv)
  have habs : v.abs ≠ 0 := ne_of_gt (v.abs_pos hv)
  have : v.norm.abs2 = 1 := by
    simp only [vector3d.norm, vector3d.abs2, vector3d.div_x, vector3d.div_y,
      vector3d.div_z, div_pow]
    rw [div_add_div_same, div_add_div_same, vector3d.sq_abs]
    exact div_self (by simpa [vector3d.abs2] using h2)
  unfold vector3d.abs
  rw [this, Real.sqrt_one]

theorem sqrt_four : Real.sqrt 4 = 2 := by
  rw [show (4 : ℝ) = 2 ^ 2 by norm_num, Real.sqrt_sq (by norm_num : (0:ℝ) ≤ 2)]

theorem sqrt_160000 : Real.sqrt 160000 = 400 := by
  rw [show (160000 : ℝ) = 400 ^ 2 by norm_num,
    Real.sqrt_sq (by norm_num : (0:ℝ) ≤ 400)]

theorem stab_step_position (stab : SimState → vector3d) (s : SimState) :
    (stab_step stab s).position = s.position := by
  unfold stab_step; split <;> rfl

theorem stab_step_velocity (stab : SimState → vector3d) (s : SimState) :
    (stab_step stab s).velocity = s.velocity := by
  unfold stab_step; split <;> rfl

theorem stab_step_previous (stab : SimState → vector3d) (s : SimState) :
    (stab_step stab s).previous = s.previous := by
  unfold stab_step; split <;> rfl

theorem apply_controllers_position (cfg : LanderConfig) (stab : SimState → vector3d)
    (s : SimState) : (apply_controllers cfg stab s).position = s.position := by
  unfold apply_controllers; rw [stab_step_position]; split <;> rfl

theorem apply_controllers_velocity (cfg : LanderConfig) (stab : SimState → vector3d)
    (s : SimState) : (apply_controllers cfg stab s).velocity = s.velocity := by
  unfold apply_controllers; rw [stab_step_velocity]; split <;> rfl

theorem apply_controllers_previous (cfg : LanderConfig) (stab : SimState → vector3d)
    (s : SimState) : (apply_controllers cfg stab s).previous = s.previous := by
  unfold apply_controllers; rw [stab_step_previous]; split <;> rfl

/-- C10: in `acceleration` the drag local is assigned only by the two
independent if-statements for DEPLOYED and NOT_DEPLOYED (no else), so the
returned acceleration is well-defined exactly when the parachute status is
one of those two values, and is computed from the unassigned drag local
(modelled as `none`) for any other status value. -/
theorem acceleration_defined_iff (cfg : LanderConfig) (ρ : vector3d → ℝ)
    (thrust : vector3d) (ps : ℤ) (fuel : ℝ) (position velocity : vector3d) :
    (acceleration cfg ρ thrust ps fuel position velocity).isSome = true ↔
      ps = DEPLOYED ∨ ps = NOT_DEPLOYED := by
  unfold acceleration drag
  split_ifs with h1 h2 <;> simp_all

/-- C9: initialize_simulation with an index having no defined scenario (an
empty case 6-9 or any index outside 0-9) leaves position, velocity,
orientation, delta_t, parachute_status, stabilized_attitude and
autopilot_enabled at their caller-provided values. -/
theorem initialize_simulation_noop (cfg : LanderConfig) (scen : ℤ) (s : SimState)
    (h0 : scen ≠ 0) (h1 : scen ≠ 1) (h2 : scen ≠ 2) (h3 : scen ≠ 3)
    (h4 : scen ≠ 4) (h5 : scen ≠ 5) :
    (initialize_simulation cfg scen s).position = s.position ∧
    (initialize_simulation cfg scen s).velocity = s.velocity ∧
    (initialize_simulation cfg scen s).orientation = s.orientation ∧
    (initialize_simulation cfg scen s).delta_t = s.delta_t ∧
    (initialize_simulation cfg scen s).parachute_status = s.parachute_status ∧
    (initialize_simulation cfg scen s).stabilized_attitude = s.stabilized_attitude ∧
    (initialize_simulation cfg scen s).autopilot_enabled = s.autopilot_enabled := by
  unfold initialize_simulation
  simp [h0, h1, h2, h3, h4, h5]

/-- Witness for initialize_simulation_noop at the empty scenario index 7. -/
theorem initialize_simulation_noop_witness :
    (initialize_simulation cfg₀ 7 s₀).position = s₀.position ∧
    (initialize_simulation cfg₀ 7 s₀).velocity = s₀.velocity ∧
    (initialize_simulation cfg₀ 7 s₀).orientation = s₀.orientation ∧
    (initialize_simulation cfg₀ 7 s₀).delta_t = s₀.delta_t ∧
    (initialize_simulation cfg₀ 7 s₀).parachute_status = s₀.parachute_status ∧
    (initialize_simulation cfg₀ 7 s₀).stabilized_attitude = s₀.stabilized_attitude ∧
    (initialize_simulation cfg₀ 7 s₀).autopilot_enabled = s₀.autopilot_enabled :=
  initialize_simulation_noop cfg₀ 7 s₀ (by decide) (by decide) (by decide)
    (by decide) (by decide) (by decide)

/-- C4 counterexample: at position (0,400,0) the lander is genuinely
ascending — position.y * velocity.y > 0 says the code's altitude measure
abs(position.y) is strictly increasing, i.e. the lander moves away from the
surface along the radial-approximated vertical axis, and the outward
vertical velocity component (+y here, since position.y > 0) is 1 > 0 —
with altitude 399 ≥ 300, yet the autopilot returns a nonzero (negative
baseline) throttle rather than 0: line 55 only tests velocity.y < 0, which
at positive-y positions fires on descent, not ascent. -/
theorem autopilot_ascent_positive_y_not_cutoff :
    0 < (⟨0, 400, 0⟩ : vector3d).y * (⟨0, 1, 0⟩ : vector3d).y ∧
    300 ≤ autopilot_alt cfg₀ ⟨0, 400, 0⟩ ∧
    autopilot cfg₀ ⟨0, 400, 0⟩ ⟨0, 1, 0⟩ 1 ≠ 0 := by
  refine ⟨by norm_num, by norm_num [autopilot_alt, cfg₀], ?_⟩
  norm_num [autopilot, autopilot_force, autopilot_alt, autopilot_scaling,
    a_gravity, vector3d.norm, vector3d.abs, vector3d.abs2, cfg₀, sqrt_160000]

/-- C4 (amended): in the negative-y half-space, where every flight scenario
places the lander, the ascent cutoff holds at any altitude: if position.y
is negative and the lander is ascending (position.y * velocity.y > 0, i.e.
the altitude measure abs(position.y) is strictly increasing, which there
means velocity.y < 0), the autopilot sets the throttle to exactly 0. -/
theorem autopilot_ascent_cutoff_descent_frame (cfg : LanderConfig)
    (pos vel : vector3d) (fuel : ℝ) (hy : pos.y < 0)
    (hasc : 0 < pos.y * vel.y) : autopilot cfg pos vel fuel = 0 := by
  have h : vel.y < 0 := by
    by_contra hk
    push_neg at hk
    nlinarith
  simp only [autopilot]
  by_cases ha : autopilot_alt cfg pos < 300
  · rw [if_pos ha, if_pos (by linarith : vel.y < 0.6)]
  · rw [if_neg ha, if_pos h]

/-- Witness for autopilot_ascent_cutoff_descent_frame: ascending through
altitude 1 at position (0,-2,0) with velocity (0,-1,0). -/
theorem autopilot_ascent_cutoff_descent_frame_witness :
    autopilot cfg₀ ⟨0, -2, 0⟩ ⟨0, -1, 0⟩ 1 = 0 :=
  autopilot_ascent_cutoff_descent_frame cfg₀ ⟨0, -2, 0⟩ ⟨0, -1, 0⟩ 1
    (by norm_num) (by norm_num)

/-- C5 counterexample: at altitude 1 < 300 with vertical speed 1 in
(0.6, 3), the code sets throttle to force/MAX_THRUST * 0.5 without the gain
scaling, which differs from baseline * 0.5 = force/MAX_THRUST * scaling * 0.5
(scaling = 3999/4000 there). -/
theorem autopilot_band_unscaled :
    autopilot_alt cfg₀ ⟨0, -2, 0⟩ < 300 ∧
    0.6 < (⟨0, 1, 0⟩ : vector3d).y ∧ (⟨0, 1, 0⟩ : vector3d).y < 3 ∧
    autopilot cfg₀ ⟨0, -2, 0⟩ ⟨0, 1, 0⟩ 1 ≠
      autopilot_force cfg₀ ⟨0, -2, 0⟩ 1 / cfg₀.MAX_THRUST
        * autopilot_scaling cfg₀ ⟨0, -2, 0⟩ * 0.5 := by
  refine ⟨by norm_num [autopilot_alt, cfg₀], by norm_num, by norm_num, ?_⟩
  norm_num [autopilot, autopilot_force, autopilot_alt, autopilot_scaling,
    a_gravity, vector3d.norm, vector3d.abs, vector3d.abs2, cfg₀, sqrt_four]

/-- C5 (amended): when altitude < 300 the throttle is force/maxThrust * 0.5
for vertical speed strictly inside (0.6, 3), force/maxThrust for vertical
speed strictly above 3, and 0 for vertical speed below 0.6; the gain scaling
is not applied inside these bands, and at vertical speed exactly 3 the
earlier baseline force/maxThrust * scaling stands. -/
theorem autopilot_low_altitude_bands (cfg : LanderConfig) (pos vel : vector3d)
    (fuel : ℝ) (h : autopilot_alt cfg pos < 300) :
    ((0.6 < vel.y ∧ vel.y < 3) →
      autopilot cfg pos vel fuel
        = autopilot_force cfg pos fuel / cfg.MAX_THRUST * 0.5) ∧
    (3 < vel.y →
      autopilot cfg pos vel fuel = autopilot_force cfg pos fuel / cfg.MAX_THRUST) ∧
    (vel.y < 0.6 → autopilot cfg pos vel fuel = 0) ∧
    (vel.y = 3 →
      autopilot cfg pos vel fuel
        = autopilot_force cfg pos fuel / cfg.MAX_THRUST * autopilot_scaling cfg pos) := by
  refine ⟨fun hb => ?_, fun hb => ?_, fun hb => ?_, fun hb => ?_⟩
  · obtain ⟨hb1, hb2⟩ := hb
    simp only [autopilot]
    rw [if_pos h, if_neg (not_lt.mpr (by linarith : (0.6:ℝ) ≤ vel.y)),
      if_neg (not_lt.mpr (by linarith : vel.y ≤ 3)), if_pos ⟨hb1, hb2⟩]
  · simp only [autopilot]
    rw [if_pos h, if_neg (not_lt.mpr (by linarith : (0.6:ℝ) ≤ vel.y)), if_pos hb]
  · simp only [autopilot]
    rw [if_pos h, if_pos hb]
  · simp only [autopilot]
    have hn1 : ¬ vel.y < 0.6 := not_lt.mpr (by rw [hb]; norm_num)
    have hn2 : ¬ 3 < vel.y := by rw [hb]; exact lt_irrefl 3
    have hn3 : ¬ (0.6 < vel.y ∧ vel.y < 3) := by
      rintro ⟨-, hc⟩; rw [hb] at hc; exact lt_irrefl 3 hc
    have hn4 : ¬ vel.y < 0 := not_lt.mpr (by rw [hb]; norm_num)
    rw [if_pos h, if_neg hn1, if_neg hn2, if_neg hn3, if_neg hn4]

/-- Witness for autopilot_low_altitude_bands in the (0.6, 3) band. -/
theorem autopilot_low_altitude_bands_witness :
    autopilot cfg₀ ⟨0, -2, 0⟩ ⟨0, 1, 0⟩ 1
      = autopilot_force cfg₀ ⟨0, -2, 0⟩ 1 / cfg₀.MAX_THRUST * 0.5 :=
  (autopilot_low_altitude_bands cfg₀ ⟨0, -2, 0⟩ ⟨0, 1, 0⟩ 1
    (by norm_num [autopilot_alt, cfg₀])).1 (by norm_num)

/-- C3 counterexample: the controller applies no clamp; at position (0,2,0)
(force is negative there), vertical speed 1, full fuel, the returned
throttle is negative, outside [0,1]. -/
theorem autopilot_negative_output :
    autopilot cfg₀ ⟨0, 2, 0⟩ ⟨0, 1, 0⟩ 1 < 0 := by
  norm_num [autopilot, autopilot_force, autopilot_alt, autopilot_scaling,
    a_gravity, vector3d.norm, vector3d.abs, vector3d.abs2, cfg₀, sqrt_four]

/-- C3 (amended): the throttle lies in [0,1] for every input whose computed
altitude is nonnegative and whose required hover force lies in
[0, MAX_THRUST] (with MAX_THRUST positive); outside those conditions no
clamp is applied. -/
theorem autopilot_bounded (cfg : LanderConfig) (pos vel : vector3d) (fuel : ℝ)
    (halt : 0 ≤ autopilot_alt cfg pos) (hMT : 0 < cfg.MAX_THRUST)
    (hf0 : 0 ≤ autopilot_force cfg pos fuel)
    (hf1 : autopilot_force cfg pos fuel ≤ cfg.MAX_THRUST) :
    0 ≤ autopilot cfg pos vel fuel ∧ autopilot cfg pos vel fuel ≤ 1 := by
  have hF0 : 0 ≤ autopilot_force cfg pos fuel / cfg.MAX_THRUST :=
    div_nonneg hf0 hMT.le
  have hF1 : autopilot_force cfg pos fuel / cfg.MAX_THRUST ≤ 1 :=
    (div_le_one hMT).mpr hf1
  have hs0 : 0 ≤ autopilot_scaling cfg pos := by
    simp only [autopilot_scaling]
    split_ifs with h
    · norm_num
    · linarith [not_lt.mp h]
  have hs1 : autopilot_scaling cfg pos ≤ 1 := by
    simp only [autopilot_scaling]
    split_ifs with h
    · norm_num
    · rw [div_le_one (by norm_num : (0:ℝ) < 4000)]
      linarith
  constructor <;> simp only [autopilot] <;> split_ifs <;>
    linarith [mul_nonneg hF0 hs0, mul_le_one₀ hF1 hs0 hs1]

/-- Witness for autopilot_bounded. -/
theorem autopilot_bounded_witness :
    0 ≤ autopilot cfg₀ ⟨0, -2, 0⟩ ⟨0, 1, 0⟩ 1 ∧
    autopilot cfg₀ ⟨0, -2, 0⟩ ⟨0, 1, 0⟩ 1 ≤ 1 :=
  autopilot_bounded cfg₀ ⟨0, -2, 0⟩ ⟨0, 1, 0⟩ 1
    (by norm_num [autopilot_alt, cfg₀])
    (by norm_num [cfg₀])
    (by norm_num [autopilot_force, a_gravity, vector3d.norm, vector3d.abs,
      vector3d.abs2, cfg₀, sqrt_four])
    (by norm_num [autopilot_force, a_gravity, vector3d.norm, vector3d.abs,
      vector3d.abs2, cfg₀, sqrt_four])

/-- C8 counterexample: at position (2,0,0) the altitude the autopilot
computes, abs(position.y) - MARS_RADIUS, is -MARS_RADIUS, not the radial
distance |position| - MARS_RADIUS. -/
theorem autopilot_alt_not_radial :
    autopilot_alt cfg₀ ⟨2, 0, 0⟩ ≠ (⟨2, 0, 0⟩ : vector3d).abs - cfg₀.MARS_RADIUS := by
  norm_num [autopilot_alt, vector3d.abs, vector3d.abs2, cfg₀, sqrt_four]

/-- C8 (amended): the altitude used by the autopilot is
abs(position.y) - MARS_RADIUS, which equals the radial altitude
|position| - MARS_RADIUS exactly when the position lies on the y axis. -/
theorem autopilot_alt_vertical_axis (cfg : LanderConfig) (pos : vector3d)
    (hx : pos.x = 0) (hz : pos.z = 0) :
    autopilot_alt cfg pos = pos.abs - cfg.MARS_RADIUS := by
  unfold autopilot_alt vector3d.abs vector3d.abs2
  rw [hx, hz]
  norm_num [Real.sqrt_sq_eq_abs]

/-- Witness for autopilot_alt_vertical_axis. -/
theorem autopilot_alt_vertical_axis_witness :
    autopilot_alt cfg₀ ⟨0, 2, 0⟩ = (⟨0, 2, 0⟩ : vector3d).abs - cfg₀.MARS_RADIUS :=
  autopilot_alt_vertical_axis cfg₀ ⟨0, 2, 0⟩ rfl rfl

theorem rmul_abs_lt (a b : ℝ) (n : vector3d) (hn : n.abs = 1) (ha : a ≤ 0)
    (hb : b < 0) : (a * n).abs < (a * n + b * n).abs := by
  rw [vector3d.rmul_add_rmul, vector3d.rmul_abs, vector3d.rmul_abs, hn, mul_one,
    mul_one, abs_of_nonpos ha, abs_of_nonpos (by linarith : a + b ≤ 0)]
  linarith

/-- C6 counterexample: with zero atmospheric density at the position (as
above the exosphere) and a nonzero velocity, deploying the parachute does
not strictly increase the magnitude of the drag contribution: both drags
vanish. -/
theorem drag_deployed_not_strict :
    (⟨0, 1, 0⟩ : vector3d) ≠ 0 ∧
    ¬ ((self_drag cfg₀ ρ₀ ⟨0, 1, 0⟩ ⟨0, 1, 0⟩).abs
        < (self_drag cfg₀ ρ₀ ⟨0, 1, 0⟩ ⟨0, 1, 0⟩
            + para_drag cfg₀ ρ₀ ⟨0, 1, 0⟩ ⟨0, 1, 0⟩).abs) := by
  constructor
  · simp [vector3d.ext_iff]
  · norm_num [self_drag, para_drag, ρ₀, vector3d.abs, vector3d.abs2]

/-- C6 (amended): for any position and nonzero velocity, DEPLOYED drag is
the skin term plus the parachute term and NOT_DEPLOYED drag has no
parachute contribution; the DEPLOYED magnitude is strictly larger provided
the atmospheric density at the position, the chute drag coefficient and the
lander size are strictly positive (and the skin coefficient nonnegative). -/
theorem drag_deployed_monotone (cfg : LanderConfig) (ρ : vector3d → ℝ)
    (pos vel : vector3d) (hρ : 0 < ρ pos) (hCdL : 0 ≤ cfg.DRAG_COEF_LANDER)
    (hCdC : 0 < cfg.DRAG_COEF_CHUTE) (hL : 0 < cfg.LANDER_SIZE) (hv : vel ≠ 0) :
    drag cfg ρ DEPLOYED pos vel
      = some (self_drag cfg ρ pos vel + para_drag cfg ρ pos vel) ∧
    drag cfg ρ NOT_DEPLOYED pos vel = some (self_drag cfg ρ pos vel) ∧
    (self_drag cfg ρ pos vel).abs
      < (self_drag cfg ρ pos vel + para_drag cfg ρ pos vel).abs := by
  have habs2 : 0 < vel.abs2 := vel.abs2_pos hv
  have hself : self_drag cfg ρ pos vel
      = (-0.5 * ρ pos * cfg.DRAG_COEF_LANDER * (3.1415 * cfg.LANDER_SIZE ^ 2)
          * vel.abs2) * vel.norm := rfl
  have hpara : para_drag cfg ρ pos vel
      = (-0.5 * ρ pos * cfg.DRAG_COEF_CHUTE * (cfg.LANDER_SIZE * 2) ^ 2
          * vel.abs2 * 5) * vel.norm := by
    ext <;> simp [para_drag] <;> ring
  refine ⟨by simp [drag], by simp [drag, DEPLOYED, NOT_DEPLOYED], ?_⟩
  rw [hself, hpara]
  apply rmul_abs_lt _ _ _ (vel.norm_abs hv)
  · have h1 : 0 ≤ 0.5 * ρ pos * cfg.DRAG_COEF_LANDER
        * (3.1415 * cfg.LANDER_SIZE ^ 2) * vel.abs2 :=
      mul_nonneg (mul_nonneg (mul_nonneg
        (mul_nonneg (by norm_num) hρ.le) hCdL) (by positivity)) habs2.le
    nlinarith [h1]
  · have hsq : 0 < (cfg.LANDER_SIZE * 2) ^ 2 := pow_pos (by linarith) 2
    have h2 : 0 < 0.5 * ρ pos * cfg.DRAG_COEF_CHUTE
        * (cfg.LANDER_SIZE * 2) ^ 2 * vel.abs2 * 5 :=
      mul_pos (mul_pos (mul_pos (mul_pos
        (mul_pos (by norm_num) hρ) hCdC) hsq) habs2) (by norm_num)
    nlinarith [h2]

/-- Witness for drag_deployed_monotone at unit density. -/
theorem drag_deployed_monotone_witness :
    drag cfg₀ ρ₁ DEPLOYED ⟨0, 1, 0⟩ ⟨0, 1, 0⟩
      = some (self_drag cfg₀ ρ₁ ⟨0, 1, 0⟩ ⟨0, 1, 0⟩
          + para_drag cfg₀ ρ₁ ⟨0, 1, 0⟩ ⟨0, 1, 0⟩) ∧
    drag cfg₀ ρ₁ NOT_DEPLOYED ⟨0, 1, 0⟩ ⟨0, 1, 0⟩
      = some (self_drag cfg₀ ρ₁ ⟨0, 1, 0⟩ ⟨0, 1, 0⟩) ∧
    (self_drag cfg₀ ρ₁ ⟨0, 1, 0⟩ ⟨0, 1, 0⟩).abs
      < (self_drag cfg₀ ρ₁ ⟨0, 1, 0⟩ ⟨0, 1, 0⟩
          + para_drag cfg₀ ρ₁ ⟨0, 1, 0⟩ ⟨0, 1, 0⟩).abs :=
  drag_deployed_monotone cfg₀ ρ₁ ⟨0, 1, 0⟩ ⟨0, 1, 0⟩
    (by norm_num [ρ₁]) (by norm_num [cfg₀]) (by norm_num [cfg₀])
    (by norm_num [cfg₀]) (by simp [vector3d.ext_iff])

/-- C1: the code's net acceleration is gravity + (thrust + drag)/mass, but
the mass it divides by is fuel * FUEL_CAPACITY * FUEL_DENSITY, omitting
UNLOADED_LANDER_MASS: at full fuel, unit thrust along y and no drag, the
code returns gravity + thrust/100 while the spec's mass formula (which the
code's own autopilot uses) gives gravity + thrust/200. -/
theorem acceleration_mass_omits_unloaded :
    acceleration cfg₀ ρ₀ ⟨0, 1, 0⟩ NOT_DEPLOYED 1 ⟨0, 1, 0⟩ 0
      = some ⟨0, -(99 / 100), 0⟩ ∧
    a_gravity cfg₀ ⟨0, 1, 0⟩
        + ((⟨0, 1, 0⟩ : vector3d) + self_drag cfg₀ ρ₀ ⟨0, 1, 0⟩ 0)
          / spec_current_mass cfg₀ 1
      = ⟨0, -(199 / 200), 0⟩ ∧
    (⟨0, -(99 / 100), 0⟩ : vector3d) ≠ ⟨0, -(199 / 200), 0⟩ := by
  refine ⟨?_, ?_, ?_⟩
  · norm_num [acceleration, drag, self_drag, a_gravity, current_mass, cfg₀, ρ₀,
      NOT_DEPLOYED, DEPLOYED, vector3d.norm, vector3d.abs, vector3d.abs2,
      Real.sqrt_one, vector3d.ext_iff]
  · norm_num [spec_current_mass, self_drag, a_gravity, cfg₀, ρ₀,
      vector3d.norm, vector3d.abs, vector3d.abs2, Real.sqrt_one, vector3d.ext_iff]
  · norm_num [vector3d.ext_iff]

/-- C7: no mass floor and no warning exist in the code: at fuel = 0 the
divisor mass is exactly 0 (not a small positive floor), and the division
fault is propagated — in the real-number model the thrust and drag
contribution collapses and the returned value is bare gravity. -/
theorem acceleration_no_mass_floor :
    current_mass cfg₀ 0 = 0 ∧
    acceleration cfg₀ ρ₀ ⟨0, 1, 0⟩ NOT_DEPLOYED 0 ⟨0, 1, 0⟩ 0
      = some (a_gravity cfg₀ ⟨0, 1, 0⟩) := by
  refine ⟨by norm_num [current_mass, cfg₀], ?_⟩
  norm_num [acceleration, drag, self_drag, a_gravity, current_mass, cfg₀, ρ₀,
    NOT_DEPLOYED, DEPLOYED, vector3d.norm, vector3d.abs, vector3d.abs2,
    Real.sqrt_one, vector3d.ext_iff]

/-- C2: with `acc` the value of the acceleration call, the step at
simulation time 0 performs exactly one Euler step with quadratic
correction (previous ← position, position ← position + v·Δt + ½·a·Δt²,
velocity ← v + a·Δt), and any step at simulation time > 0 applies only the
central-difference recurrence next = 2·position − previous + a·Δt² with
velocity = (next − previous)/(2·Δt), previous ← old position, position ←
next — it never re-enters the bootstrap branch. -/
theorem numerical_dynamics_branches (cfg : LanderConfig) (ρ : vector3d → ℝ)
    (thrust : vector3d) (stab : SimState → vector3d) (s s' : SimState)
    (acc : vector3d)
    (hacc : acceleration cfg ρ thrust s.parachute_status s.fuel s.position
      s.velocity = some acc)
    (h : numerical_dynamics cfg ρ thrust stab s = some s') :
    (s.simulation_time = 0 →
      s'.previous = s.position ∧
      s'.position = s.position + s.velocity * s.delta_t
        + 0.5 * s.delta_t * s.delta_t * acc ∧
      s'.velocity = s.velocity + s.delta_t * acc) ∧
    (0 < s.simulation_time →
      s'.previous = s.position ∧
      s'.position = (2 : ℝ) * s.position - s.previous + acc * s.delta_t * s.delta_t ∧
      s'.velocity = ((2 : ℝ) * s.position - s.previous
        + acc * s.delta_t * s.delta_t - s.previous) / (2 * s.delta_t)) := by
  constructor
  · intro ht
    rw [numerical_dynamics, if_pos ht, hacc, Option.map_some'] at h
    have hs := Option.some.inj h
    refine ⟨?_, ?_, ?_⟩ <;> rw [← hs]
    · rw [apply_controllers_previous]
    · rw [apply_controllers_position]
    · rw [apply_controllers_velocity]
  · intro ht
    rw [numerical_dynamics, if_neg ht.ne', hacc, Option.map_some'] at h
    have hs := Option.some.inj h
    refine ⟨?_, ?_, ?_⟩ <;> rw [← hs]
    · rw [apply_controllers_previous]
    · rw [apply_controllers_position]
    · rw [apply_controllers_velocity]

/-- Witness for numerical_dynamics_branches: the bootstrap step from rest
at (0,1,0) with Δt = 1 under gravity ⟨0,-1,0⟩ yields s₁. -/
theorem numerical_dynamics_branches_witness :
    s₁.previous = s₀.position ∧
    s₁.position = s₀.position + s₀.velocity * s₀.delta_t
      + 0.5 * s₀.delta_t * s₀.delta_t * (⟨0, -1, 0⟩ : vector3d) ∧
    s₁.velocity = s₀.velocity + s₀.delta_t * (⟨0, -1, 0⟩ : vector3d) := by
  have hacc : acceleration cfg₀ ρ₀ thrust₀ s₀.parachute_status s₀.fuel
      s₀.position s₀.velocity = some ⟨0, -1, 0⟩ := by
    norm_num [acceleration, drag, self_drag, para_drag, a_gravity, current_mass,
      s₀, cfg₀, ρ₀, thrust₀, NOT_DEPLOYED, DEPLOYED, vector3d.norm,
      vector3d.abs, vector3d.abs2, Real.sqrt_one, vector3d.ext_iff]
  have hnd : numerical_dynamics cfg₀ ρ₀ thrust₀ stab₀ s₀ = some s₁ := by
    have ht0 : s₀.simulation_time = 0 := rfl
    rw [numerical_dynamics, if_pos ht0, hacc, Option.map_some']
    norm_num [apply_controllers, stab_step, s₀, s₁, vector3d.ext_iff]
  exact (numerical_dynamics_branches cfg₀ ρ₀ thrust₀ stab₀ s₀ s₁ ⟨0, -1, 0⟩
    hacc hnd).1 rfl
